import Mathlib

/-!
Verification of the smart_camper diesel-heater subsystem.

The definitions below are a shallow embedding of the Python sources:
  * `camper_backend/hardware/autotherm_heater_control/autoterm_heater.py`
    (frame codec, `_send_command`, status parsing, the four wire commands),
  * `camper_backend/hardware/heater.py` (`HeaterController`: timer
    bookkeeping, `shutdown`, `turn_on_heating`, `change_settings`),
  * `camper_backend/app.py` (`check_heater_schedule`, `check_runtime_timer`,
    `handle_diesel_heater_command`).

Bytes are modelled as `Nat` (with explicit `% 256` / bounds where Python's
`bytes` type forces them); byte strings are `List Nat`; Python `None` is
`Option.none`; wall-clock timestamps are `Nat` seconds.  The serial
exchange itself is abstracted: functions that perform a wire exchange take
the raw bytes the wire would return (`Option (List Nat)`, `none` meaning no
response / serial error) or a boolean outcome as an explicit argument.
-/

/-! ### Frame codec (`_calculate_crc`, `_build_message`, `_send_command`) -/

/-- One inner iteration of the CRC loop in `_calculate_crc`:
`if crc & 0x0001: crc = (crc >> 1) ^ 0xA001 else: crc >>= 1`. -/
def crcBitStep (crc : Nat) : Nat :=
  if crc % 2 = 1 then (crc / 2) ^^^ 0xA001 else crc / 2

/-- Eight applications of `crcBitStep` (the `for _ in range(8)` loop). -/
def crcBits : Nat → Nat → Nat
  | 0, crc => crc
  | n + 1, crc => crcBits n (crcBitStep crc)

/-- `_calculate_crc` without the final `to_bytes`: initial value `0xFFFF`,
then for each byte `crc ^= byte` followed by eight bit steps. -/
def calculateCrc (data : List Nat) : Nat :=
  data.foldl (fun crc b => crcBits 8 (crc ^^^ b)) 0xFFFF

/-- `crc.to_bytes(2, *big*)`: the 16-bit CRC as two big-endian bytes. -/
def crcBytesBE (crc : Nat) : List Nat :=
  [crc / 256 % 256, crc % 256]

/-- `_build_message(msg_type, payload)`:
`header = [0xAA, 0x03, len(payload), 0x00, msg_type]`,
result `header + payload + _calculate_crc(header + payload)`. -/
def buildMessage (msgType : Nat) (payload : List Nat) : List Nat :=
  let header : List Nat := [0xAA, 0x03, payload.length, 0x00, msgType]
  (header ++ payload) ++ crcBytesBE (calculateCrc (header ++ payload))

/-- The frame layout generalised over the device and command-major bytes
(`_build_message` is the instance `device = 0x03`, `command_major = 0x00`;
see `buildMessage_eq_encodeFrame`). -/
def encodeFrame (device maj minr : Nat) (payload : List Nat) : List Nat :=
  let body : List Nat := 0xAA :: device :: payload.length :: maj :: minr :: payload
  body ++ crcBytesBE (calculateCrc body)

/-- A decoded frame: the header fields and payload recovered by the
response-validation code in `_send_command`. -/
structure Frame where
  device : Nat
  declaredLength : Nat
  cmdMajor : Nat
  cmdMinor : Nat
  payload : List Nat
deriving DecidableEq

/-- `raw_response.find(0xAA)` followed by `raw_response[start_index:]`:
drop leading garbage up to the first `0xAA`, `none` if no preamble. -/
def dropToPreamble : List Nat → Option (List Nat)
  | [] => none
  | b :: rest => if b = 0xAA then some (b :: rest) else dropToPreamble rest

/-- The response-validation logic of `_send_command` (lines 246-274):
scan to the preamble, require at least 7 bytes, require the total length to
be `5 + payload_length + 2` (with `payload_length = trimmed[2]`), require
the trailing two bytes to equal the CRC of everything before them, then
read out the header fields and payload (`response_data[5:]`). -/
def decodeFrame (buffer : List Nat) : Option Frame :=
  match dropToPreamble buffer with
  | none => none
  | some trimmed =>
    if trimmed.length < 7 then none
    else
      let payloadLength := trimmed.getD 2 0
      if trimmed.length ≠ 5 + payloadLength + 2 then none
      else
        let responseData := trimmed.take (trimmed.length - 2)
        let receivedCrc := trimmed.drop (trimmed.length - 2)
        if receivedCrc ≠ crcBytesBE (calculateCrc responseData) then none
        else
          some ⟨trimmed.getD 1 0, payloadLength, trimmed.getD 3 0,
                trimmed.getD 4 0, responseData.drop 5⟩

/-- `_send_command`: if the port is not open, fail without writing;
otherwise write once (the second component counts write attempts — the
source has a single `self.ser.write(command)` and no retry loop), read the
raw response and validate it, returning just the payload.  `raw = none`
models an empty/absent response or a caught `SerialException`. -/
def sendCommand (portOpen : Bool) (raw : Option (List Nat)) :
    Option (List Nat) × Nat :=
  if portOpen then
    match raw with
    | none => (none, 1)
    | some buf => ((decodeFrame buf).map Frame.payload, 1)
  else (none, 0)

/-! ### Status parsing (`get_status`) -/

/-- `parse_signed` from `get_status`:
`if b < -20: return b + 256` else `return b`.  Its argument is a byte
obtained by indexing a Python `bytes` object, hence an integer in
`[0, 255]`. -/
def parseSigned (b : Int) : Int :=
  if b < -20 then b + 256 else b

/-- `_build_message` is `encodeFrame` at `device = 0x03`, `maj = 0x00`. -/
theorem buildMessage_eq_encodeFrame (msgType : Nat) (payload : List Nat) :
    buildMessage msgType payload = encodeFrame 0x03 0x00 msgType payload := by
  simp [buildMessage, encodeFrame]

/-! ### Codec helper lemmas -/

/-- Decoding an encoded frame recovers every field. -/
theorem decodeFrame_encodeFrame (device maj minr : Nat) (payload : List Nat) :
    decodeFrame (encodeFrame device maj minr payload)
      = some ⟨device, payload.length, maj, minr, payload⟩ := by
  have hform : encodeFrame device maj minr payload
      = 0xAA :: device :: payload.length :: maj :: minr ::
          (payload ++ crcBytesBE (calculateCrc
            (0xAA :: device :: payload.length :: maj :: minr :: payload))) := by
    simp [encodeFrame]
  set crc2 := crcBytesBE (calculateCrc
      (0xAA :: device :: payload.length :: maj :: minr :: payload)) with hcrc2
  have hcrc2len : crc2.length = 2 := rfl
  set trimmed := 0xAA :: device :: payload.length :: maj :: minr ::
      (payload ++ crc2) with htr
  have hlen : trimmed.length = 7 + payload.length := by
    simp [htr, hcrc2len]
    omega
  have hdrop : dropToPreamble (encodeFrame device maj minr payload) = some trimmed := by
    rw [hform]
    simp [dropToPreamble, htr]
  have hgetD2 : trimmed.getD 2 0 = payload.length := by simp [htr, List.getD]
  have hsplit : trimmed
      = (0xAA :: device :: payload.length :: maj :: minr :: payload) ++ crc2 := by
    simp [htr]
  have htake : trimmed.take (trimmed.length - 2)
      = 0xAA :: device :: payload.length :: maj :: minr :: payload := by
    rw [hsplit]
    rw [show ((0xAA :: device :: payload.length :: maj :: minr :: payload) ++ crc2).length - 2
        = (0xAA :: device :: payload.length :: maj :: minr :: payload).length from by
      simp [hcrc2len]]
    exact List.take_left _ _
  have hdrop2 : trimmed.drop (trimmed.length - 2) = crc2 := by
    rw [hsplit]
    rw [show ((0xAA :: device :: payload.length :: maj :: minr :: payload) ++ crc2).length - 2
        = (0xAA :: device :: payload.length :: maj :: minr :: payload).length from by
      simp [hcrc2len]]
    exact List.drop_left _ _
  rw [decodeFrame, hdrop]
  simp only [hgetD2, htake, hdrop2]
  rw [if_neg (by omega), if_neg (by omega), if_neg (by simp [hcrc2])]
  simp [htr, List.getD]

/-- Whenever the decoder accepts a buffer, the trailing two bytes of the
trimmed frame (which begins at the `0xAA` preamble) equal the CRC over all
bytes before them — the preamble included. -/
theorem decodeFrame_crc_check (buf trimmed : List Nat) (fr : Frame)
    (h : decodeFrame buf = some fr)
    (hdrop : dropToPreamble buf = some trimmed) :
    trimmed.drop (trimmed.length - 2)
      = crcBytesBE (calculateCrc (trimmed.take (trimmed.length - 2))) := by
  have h2 : (if trimmed.length < 7 then (none : Option Frame)
      else if trimmed.length ≠ 5 + trimmed.getD 2 0 + 2 then none
      else if trimmed.drop (trimmed.length - 2)
          ≠ crcBytesBE (calculateCrc (trimmed.take (trimmed.length - 2))) then none
      else some ⟨trimmed.getD 1 0, trimmed.getD 2 0, trimmed.getD 3 0,
        trimmed.getD 4 0, (trimmed.take (trimmed.length - 2)).drop 5⟩) = some fr := by
    rw [decodeFrame, hdrop] at h
    exact h
  by_cases h7 : trimmed.length < 7
  · rw [if_pos h7] at h2
    exact absurd h2 (by simp)
  · rw [if_neg h7] at h2
    by_cases hl : trimmed.length ≠ 5 + trimmed.getD 2 0 + 2
    · rw [if_pos hl] at h2
      exact absurd h2 (by simp)
    · rw [if_neg hl] at h2
      by_cases hc : trimmed.drop (trimmed.length - 2)
          ≠ crcBytesBE (calculateCrc (trimmed.take (trimmed.length - 2)))
      · rw [if_pos hc] at h2
        exact absurd h2 (by simp)
      · exact not_not.mp hc

/-! ### Claim C1 -/

set_option maxRecDepth 8000 in
/-- C1 counterexample: the checksum `_build_message` appends to the
Get-Version frame is not the CRC over `[device, length, command_major,
command_minor]` with the preamble excluded — the code computes the CRC over
the full header including the `0xAA` preamble byte. -/
theorem crc_preamble_excluded_counterexample :
    (buildMessage 0x06 []).drop 5
      ≠ crcBytesBE (calculateCrc [0x03, 0x00, 0x00, 0x06]) := by
  decide

/-- C1 (amended): for every frame built by the encoder, the appended 16-bit
big-endian checksum equals the table-equivalent CRC (init `0xFFFF`,
feedback `0xA001`, LSB-first) computed over `[preamble, device, length,
command_major, command_minor, payload...]` — the preamble byte included —
and the decoder accepts a frame only if its trailing two bytes equal that
CRC over all preceding bytes of the trimmed frame. -/
theorem crc_covers_header_with_preamble (msgType : Nat) (payload : List Nat)
    (buf trimmed : List Nat) (fr : Frame) :
    buildMessage msgType payload
      = (0xAA :: 0x03 :: payload.length :: 0x00 :: msgType :: payload)
          ++ crcBytesBE (calculateCrc
              (0xAA :: 0x03 :: payload.length :: 0x00 :: msgType :: payload))
    ∧ (decodeFrame buf = some fr → dropToPreamble buf = some trimmed →
        trimmed.drop (trimmed.length - 2)
          = crcBytesBE (calculateCrc (trimmed.take (trimmed.length - 2)))) := by
  constructor
  · simp [buildMessage]
  · intro h hdrop
    exact decodeFrame_crc_check buf trimmed fr h hdrop

set_option maxRecDepth 8000 in
/-- Witness for `crc_covers_header_with_preamble` at the Get-Version frame. -/
theorem crc_covers_header_with_preamble_witness :
    buildMessage 0x06 []
      = (0xAA :: 0x03 :: 0 :: 0x00 :: 0x06 :: ([] : List Nat))
          ++ crcBytesBE (calculateCrc
              (0xAA :: 0x03 :: 0 :: 0x00 :: 0x06 :: ([] : List Nat)))
    ∧ (buildMessage 0x06 []).drop ((buildMessage 0x06 []).length - 2)
        = crcBytesBE (calculateCrc
            ((buildMessage 0x06 []).take ((buildMessage 0x06 []).length - 2))) := by
  have h := crc_covers_header_with_preamble 0x06 [] (buildMessage 0x06 [])
    (buildMessage 0x06 []) ⟨0x03, 0, 0x00, 0x06, []⟩
  exact ⟨h.1, h.2 (by decide) (by decide)⟩

/-! ### Claim C8 -/

/-- C8: the checksum computation is deterministic, and for every device
byte, command pair and payload of at most 255 bytes, decoding the encoded
frame reproduces the device, declared length, command bytes and payload
exactly. -/
theorem checksum_deterministic_and_roundtrip (device maj minr : Nat)
    (payload : List Nat) (hd : device < 256) (hmaj : maj < 256)
    (hminr : minr < 256) (hbytes : ∀ b ∈ payload, b < 256)
    (hlen : payload.length ≤ 255) :
    (∀ d1 d2 : List Nat, d1 = d2 → calculateCrc d1 = calculateCrc d2)
    ∧ decodeFrame (encodeFrame device maj minr payload)
        = some ⟨device, payload.length, maj, minr, payload⟩ :=
  ⟨fun _ _ h => congrArg calculateCrc h, decodeFrame_encodeFrame device maj minr payload⟩

set_option maxRecDepth 8000 in
/-- Witness for `checksum_deterministic_and_roundtrip` on a status-request
style frame from the heater device. -/
theorem checksum_deterministic_and_roundtrip_witness :
    decodeFrame (encodeFrame 0x04 0x00 0x0F [7, 9])
      = some ⟨0x04, 2, 0x00, 0x0F, [7, 9]⟩ :=
  (checksum_deterministic_and_roundtrip 0x04 0x00 0x0F [7, 9] (by decide)
    (by decide) (by decide) (by decide) (by decide)).2

/-! ### Claim C3 -/

/-- C3: evaluation of `parse_signed` on its actual input domain.  The bytes
fed to `parse_signed` come from indexing a Python `bytes` object, so they
lie in `[0, 255]`; the guard `b < -20` is then never true, `parse_signed`
is the identity, and no decoded temperature is ever negative.  In
particular byte `0xFF` decodes to `255`, not to the two's-complement
`-1`. -/
theorem parse_signed_identity_on_bytes :
    parseSigned 255 = 255
    ∧ ∀ b : Nat, b ≤ 255 →
        parseSigned (b : Int) = (b : Int) ∧ 0 ≤ parseSigned (b : Int) := by
  constructor
  · decide
  · intro b _
    have hb : ¬ ((b : Int) < -20) := by omega
    constructor
    · simp [parseSigned, hb]
    · simp [parseSigned, hb]

/-- Witness for `parse_signed_identity_on_bytes` at byte `0xFF`. -/
theorem parse_signed_identity_on_bytes_witness :
    parseSigned (255 : Nat) = ((255 : Nat) : Int)
    ∧ 0 ≤ parseSigned ((255 : Nat) : Int) :=
  ⟨(parse_signed_identity_on_bytes.2 255 (by decide)).1,
   (parse_signed_identity_on_bytes.2 255 (by decide)).2⟩

/-! ### Claim C4 -/

set_option maxRecDepth 8000 in
/-- C4 counterexample: after a first exchange that yields no response,
`_send_command` reports failure having made exactly one write attempt — it
never retries — even though the very same request, if re-sent and answered
with a valid echo frame, would parse successfully (so a retry would have
succeeded). -/
theorem send_retries_counterexample :
    (sendCommand true none).1 = none ∧ (sendCommand true none).2 = 1
    ∧ (sendCommand true (some (encodeFrame 0x04 0x00 0x06 [1, 0, 0, 0, 0]))).1
        = some [1, 0, 0, 0, 0] := by
  refine ⟨rfl, rfl, ?_⟩
  simp [sendCommand, decodeFrame_encodeFrame]

/-- C4 (amended): `_send_command` performs exactly one write attempt per
call (no retry loop and no inter-attempt delay exist); when the port is not
open it fails without writing, and a timed-out exchange reports failure as
the return value `none`, never by raising. -/
theorem send_single_attempt (raw : Option (List Nat)) :
    (sendCommand true raw).2 = 1
    ∧ sendCommand false raw = (none, 0)
    ∧ (raw = none → (sendCommand true raw).1 = none) := by
  refine ⟨?_, rfl, ?_⟩
  · cases raw <;> rfl
  · intro h
    subst h
    rfl

/-- Witness for `send_single_attempt` at a timed-out exchange. -/
theorem send_single_attempt_witness :
    (sendCommand true none).2 = 1 ∧ (sendCommand true none).1 = none :=
  ⟨(send_single_attempt none).1, (send_single_attempt none).2.2 rfl⟩

/-! ### String membership (Python's `needle in haystack`) -/

/-- `needle in haystack` on character lists: true iff `needle` occurs as a
contiguous run (Python substring membership). -/
def listContainsSub (needle : List Char) : List Char → Bool
  | [] => needle.isEmpty
  | c :: t => needle.isPrefixOf (c :: t) || listContainsSub needle t

/-- Python's `needle in hay` for strings. -/
def strContains (hay needle : String) : Bool :=
  listContainsSub needle.toList hay.toList

/-! ### `AutotermHeaterController` cached state and wire commands -/

/-- The mutable fields of `AutotermHeaterController` the claims concern:
`is_initialized`, `current_mode` (the strings off / temp / power / fan),
`current_setpoint`, `timer_end_time`, and the two strings of `last_status`
read by `HeaterController.get_state` (an empty `last_status` dict makes the
`.get` defaults "Standby" / "No Error", so the initial state carries
those strings). -/
structure AutoState where
  isInitialized : Bool
  currentMode : String
  currentSetpoint : Int
  timerEndTime : Option Nat
  lastStatusDesc : String
  lastErrorDesc : String
deriving DecidableEq

/-- `turn_on_power_mode(level, timer_minutes)`.  `resp` is the payload
`_send_command` would return (`none` = failed exchange); the state is
updated only under `if success:`. -/
def autoTurnOnPowerMode (st : AutoState) (level : Int) (timerMinutes : Option Nat)
    (resp : Option (List Nat)) (now : Nat) : Bool × AutoState :=
  if st.isInitialized = false then (false, st)
  else if resp.isSome then
    (true, { st with
      currentMode := "power",
      currentSetpoint := level,
      timerEndTime := (match timerMinutes with
        | some m => if m ≠ 0 then some (now + m * 60) else none
        | none => none) })
  else (false, st)

/-- `turn_on_temp_mode(setpoint, timer_minutes)`. -/
def autoTurnOnTempMode (st : AutoState) (setpoint : Int) (timerMinutes : Option Nat)
    (resp : Option (List Nat)) (now : Nat) : Bool × AutoState :=
  if st.isInitialized = false then (false, st)
  else if resp.isSome then
    (true, { st with
      currentMode := "temp",
      currentSetpoint := setpoint,
      timerEndTime := (match timerMinutes with
        | some m => if m ≠ 0 then some (now + m * 60) else none
        | none => none) })
  else (false, st)

/-- `turn_on_fan_only(level, timer_minutes)`. -/
def autoTurnOnFanOnly (st : AutoState) (level : Int) (timerMinutes : Option Nat)
    (resp : Option (List Nat)) (now : Nat) : Bool × AutoState :=
  if st.isInitialized = false then (false, st)
  else if resp.isSome then
    (true, { st with
      currentMode := "fan",
      currentSetpoint := level,
      timerEndTime := (match timerMinutes with
        | some m => if m ≠ 0 then some (now + m * 60) else none
        | none => none) })
  else (false, st)

/-- `turn_off()`. -/
def autoTurnOff (st : AutoState) (resp : Option (List Nat)) : Bool × AutoState :=
  if st.isInitialized = false then (false, st)
  else if resp.isSome then
    (true, { st with currentMode := "off", currentSetpoint := 0, timerEndTime := none })
  else (false, st)

/-! ### `HeaterController` (heater.py) -/

/-- A stored deferred-start action (`pending_start_command` dict). -/
structure PendingCmd where
  command : String
  mode : String
  value : Int
  runTimerMinutes : Option Nat
deriving DecidableEq

/-- `HeaterController`'s own fields: `is_mocked` (true also stands for
`self.heater is None`, which the source always sets together with it) and
the three timer variables. -/
structure HCState where
  isMocked : Bool
  startTimerTimestamp : Option Nat
  pendingStartCommand : Option PendingCmd
  shutdownTimerTimestamp : Option Nat
deriving DecidableEq

/-- The whole heater-related mutable state: the library controller, the
`HeaterController` wrapper, and the module-level globals of `app.py`. -/
structure SysState where
  auto : AutoState
  hc : HCState
  runtimeEndTime : Option Nat
  safetyShutdownTime : Option Nat
  shutdownTriggered : Bool
  runtimeDuration : Option Nat
  retryShutdownTimestamp : Option Nat
  timerOnOff : Bool
deriving DecidableEq

/-- `MODE_MAP` in heater.py (`dict.get`: `none` when absent). -/
def modeMap (m : String) : Option String :=
  if m = "temperature" then some "temp"
  else if m = "power" then some "power"
  else if m = "ventilation" then some "fan"
  else none

/-- `MODE_MAP_REVERSE.get` with default "temperature". -/
def modeMapReverse (m : String) : String :=
  if m = "temp" then "temperature"
  else if m = "power" then "power"
  else if m = "fan" then "ventilation"
  else "temperature"

/-- The fields of `HeaterController.get_state()` the tick functions read. -/
structure FrontState where
  status : String
  mode : String
  setpoint : Int
deriving DecidableEq

/-- `get_state()`: the mocked branch returns the canned not-connected
dict; otherwise status is the error description when an error is present,
else the status description, and the setpoint is reported only in
temperature mode. -/
def getState (st : SysState) : FrontState :=
  if st.hc.isMocked then ⟨"Error: Not Connected", "temperature", 20⟩
  else
    ⟨if st.auto.lastErrorDesc ≠ "No Error" then st.auto.lastErrorDesc
      else st.auto.lastStatusDesc,
     modeMapReverse st.auto.currentMode,
     if st.auto.currentMode = "temp" then st.auto.currentSetpoint else 0⟩

/-- The wire outcome handed to the library commands: `wireOk = true` means
`_send_command` returned a (payload) value, `false` means it returned
`None`. -/
def wireResp (wireOk : Bool) : Option (List Nat) :=
  if wireOk then some [] else none

/-- `HeaterController.shutdown()`: send `turn_off` when not mocked, then
always clear the start-timer, its pending command, and the shutdown-timer.
(The retry-shutdown timestamp lives in app.py and is not touched here.) -/
def hcShutdown (wireOk : Bool) (st : SysState) : SysState :=
  let auto2 := if st.hc.isMocked = false then (autoTurnOff st.auto (wireResp wireOk)).2
               else st.auto
  { st with
    auto := auto2,
    hc := { st.hc with
      startTimerTimestamp := none,
      pendingStartCommand := none,
      shutdownTimerTimestamp := none } }

/-- `HeaterController.turn_on_heating(mode, value, run_timer_minutes)`:
map the frontend mode, send the matching library command (success stays
false for unmapped/fan modes), and on success clear the start-timer and
set or clear the shutdown-timer (`if run_timer_minutes and
run_timer_minutes > 0`). -/
def hcTurnOnHeating (mode : String) (value : Int) (runTimerMinutes : Option Nat)
    (wireOk : Bool) (now : Nat) (st : SysState) : SysState :=
  if st.hc.isMocked then st
  else
    let libMode := modeMap mode
    let r :=
      if libMode = some "temp" then
        autoTurnOnTempMode st.auto value none (wireResp wireOk) now
      else if libMode = some "power" then
        autoTurnOnPowerMode st.auto value none (wireResp wireOk) now
      else (false, st.auto)
    let st2 := { st with auto := r.2 }
    if r.1 then
      { st2 with
        hc := { st2.hc with
          startTimerTimestamp := none,
          pendingStartCommand := none,
          shutdownTimerTimestamp := (match runTimerMinutes with
            | some m => if m > 0 then some (now + m * 60) else none
            | none => none) } }
    else st2

/-- `HeaterController.turn_on_ventilation(level, run_timer_minutes)`. -/
def hcTurnOnVentilation (level : Int) (runTimerMinutes : Option Nat)
    (wireOk : Bool) (now : Nat) (st : SysState) : SysState :=
  if st.hc.isMocked then st
  else
    let r := autoTurnOnFanOnly st.auto level none (wireResp wireOk) now
    let st2 := { st with auto := r.2 }
    if r.1 then
      { st2 with
        hc := { st2.hc with
          startTimerTimestamp := none,
          pendingStartCommand := none,
          shutdownTimerTimestamp := (match runTimerMinutes with
            | some m => if m > 0 then some (now + m * 60) else none
            | none => none) } }
    else st2

/-- `HeaterController.change_settings(mode, value)`: compute
`max(0, int((ts - now) / 60))` from any existing shutdown-timer (on `Nat`,
`(ts - now) / 60` equals that Python expression: truncation at zero covers
both the `int()` of a negative quotient and the `max(0, ·)`), then re-call
the matching turn-on with that minute count. -/
def hcChangeSettings (mode : String) (value : Int) (wireOk : Bool) (now : Nat)
    (st : SysState) : SysState :=
  if st.hc.isMocked then st
  else
    let existing : Option Nat :=
      match st.hc.shutdownTimerTimestamp with
      | some ts => some ((ts - now) / 60)
      | none => none
    let libMode := modeMap mode
    if libMode = some "temp" then hcTurnOnHeating mode value existing wireOk now st
    else if libMode = some "power" then hcTurnOnHeating mode value existing wireOk now st
    else if libMode = some "fan" then hcTurnOnVentilation value existing wireOk now st
    else st

/-! ### app.py tick functions and command handler -/

/-- A call the app layer makes into `HeaterController` (the command trace
of one tick / one handled command). -/
inductive AppCmd where
  | shutdown : AppCmd
  | turnOnHeating (mode : String) (value : Int) (runTimerMinutes : Option Nat) : AppCmd
  | turnOnVentilation (value : Int) (runTimerMinutes : Option Nat) : AppCmd
deriving DecidableEq

/-- `check_runtime_timer()`: step 1 fires the initial shutdown when the
runtime end is due and not yet triggered (arming the 5-minute safety
shutdown); step 2 fires the safety shutdown when due.  Neither step
consults the reported heater status. -/
def checkRuntimeTimer (wireOk : Bool) (now : Nat) (st : SysState) :
    List AppCmd × SysState :=
  let r1 :=
    match st.runtimeEndTime with
    | some endTime =>
      if now ≥ endTime ∧ st.shutdownTriggered = false then
        ([AppCmd.shutdown],
         { hcShutdown wireOk st with
            safetyShutdownTime := some (now + 5 * 60),
            shutdownTriggered := true,
            runtimeEndTime := none })
      else ([], st)
    | none => ([], st)
  match r1.2.safetyShutdownTime with
  | some sTime =>
    if now ≥ sTime then
      (r1.1 ++ [AppCmd.shutdown],
       { hcShutdown wireOk r1.2 with
          safetyShutdownTime := none,
          runtimeDuration := none,
          shutdownTriggered := false })
    else r1
  | none => r1

/-- One entry of `HEATER_SCHEDULE["timers"]` (`days`, `starttime`,
`endtime`, `output`; missing keys default as in the `.get` calls). -/
structure TimerEntry where
  days : List Nat
  starttime : Option String
  endtime : Option String
  output : Int
deriving DecidableEq

/-- The retry block at the top of `check_heater_schedule`: when the
retry-shutdown timestamp is due, a status containing `"Starting"` re-arms
it 60 s out; `"Shutting"`/`"Standby"`/`"off"` clears it without acting;
anything else performs the deferred shutdown and clears it. -/
def retryStep (nowTs : Nat) (wireOk : Bool) (st : SysState) :
    List AppCmd × SysState :=
  match st.retryShutdownTimestamp with
  | some rt =>
    if nowTs ≥ rt then
      if strContains (getState st).status "Starting" then
        ([], { st with retryShutdownTimestamp := some (nowTs + 60) })
      else if strContains (getState st).status "Shutting"
          ∨ (getState st).status = "Standby" ∨ (getState st).status = "off" then
        ([], { st with retryShutdownTimestamp := none })
      else
        ([AppCmd.shutdown], { hcShutdown wireOk st with retryShutdownTimestamp := none })
    else ([], st)
  | none => ([], st)

/-- The per-entry body of the `for timer in ...` loop in
`check_heater_schedule`: on a weekday match, a start-time match turns on
temperature mode at the entry's setpoint (with no run-limit) unless the
heater already reports that mode and setpoint; an end-time match defers
via the retry timestamp while `"Starting"`, does nothing in a safe-off
status, and otherwise shuts down. -/
def schedEntryStep (day : Nat) (timeStr : String) (nowTs : Nat) (wireOk : Bool)
    (t : TimerEntry) (st : SysState) : List AppCmd × SysState :=
  if day ∈ t.days then
    if t.starttime = some timeStr then
      if (getState st).mode ≠ "temperature" ∨ (getState st).setpoint ≠ t.output then
        ([AppCmd.turnOnHeating "temperature" t.output none],
         hcTurnOnHeating "temperature" t.output none wireOk nowTs st)
      else ([], st)
    else if t.endtime = some timeStr then
      if strContains (getState st).status "Starting" then
        ([], { st with retryShutdownTimestamp := some (nowTs + 60) })
      else if strContains (getState st).status "Shutting"
          ∨ (getState st).status = "Standby" ∨ (getState st).status = "off" then
        ([], st)
      else ([AppCmd.shutdown], hcShutdown wireOk st)
    else ([], st)
  else ([], st)

/-- The schedule loop over all timer entries, threading the state. -/
def schedLoop (day : Nat) (timeStr : String) (nowTs : Nat) (wireOk : Bool) :
    List TimerEntry → SysState → List AppCmd × SysState
  | [], st => ([], st)
  | t :: rest, st =>
    let r := schedEntryStep day timeStr nowTs wireOk t st
    let r2 := schedLoop day timeStr nowTs wireOk rest r.2
    (r.1 ++ r2.1, r2.2)

/-- `check_heater_schedule()`: a no-op while the timer system is disabled;
otherwise the retry block followed by the schedule loop.  `day` is
`now.weekday()` (Monday = 0) and `timeStr` is `now.strftime("%H:%M")`. -/
def checkHeaterSchedule (day : Nat) (timeStr : String) (nowTs : Nat) (wireOk : Bool)
    (timers : List TimerEntry) (st : SysState) : List AppCmd × SysState :=
  if st.timerOnOff = false then ([], st)
  else
    let r1 := retryStep nowTs wireOk st
    let r2 := schedLoop day timeStr nowTs wireOk timers r1.2
    (r1.1 ++ r2.1, r2.2)

/-- The shutdown-command branch of `handle_diesel_heater_command`:
`heater_controller.shutdown()` plus clearing the runtime-timer globals
(`HEATER_RETRY_SHUTDOWN_TIMESTAMP` is not among them). -/
def handleShutdownCommand (wireOk : Bool) (st : SysState) : List AppCmd × SysState :=
  ([AppCmd.shutdown],
   { hcShutdown wireOk st with
      runtimeEndTime := none,
      safetyShutdownTime := none,
      runtimeDuration := none,
      shutdownTriggered := false })

/-- The turn-on-command branch of `handle_diesel_heater_command`:
with a positive `run_timer_minutes` arm the Python-managed runtime timer
and start the heater with no hardware timer; otherwise clear the runtime
globals and start indefinitely. -/
def handleTurnOnCommand (mode : String) (value : Int) (runTimerMinutes : Option Nat)
    (wireOk : Bool) (now : Nat) (st : SysState) : List AppCmd × SysState :=
  let timed := match runTimerMinutes with
    | some m => decide (m > 0)
    | none => false
  match runTimerMinutes, timed with
  | some m, true =>
    let st1 := { st with
      runtimeEndTime := some (now + m * 60),
      runtimeDuration := some m,
      safetyShutdownTime := none,
      shutdownTriggered := false }
    ([AppCmd.turnOnHeating mode value none],
     hcTurnOnHeating mode value none wireOk now st1)
  | _, _ =>
    let st1 := { st with
      runtimeEndTime := none,
      safetyShutdownTime := none,
      runtimeDuration := none,
      shutdownTriggered := false }
    ([AppCmd.turnOnHeating mode value none],
     hcTurnOnHeating mode value none wireOk now st1)

/-! ### Status-string invariance helpers

None of the command paths touches `last_status` (only the heartbeat thread
replaces it), so the status string `get_state()` reports is invariant
across the calls a tick makes. -/

/-- The status string a tick's guards read. -/
def statusOf (st : SysState) : String :=
  (getState st).status

theorem autoTurnOff_preserves_last (st : AutoState) (resp : Option (List Nat)) :
    ((autoTurnOff st resp).2).lastStatusDesc = st.lastStatusDesc
    ∧ ((autoTurnOff st resp).2).lastErrorDesc = st.lastErrorDesc := by
  unfold autoTurnOff
  split
  · exact ⟨rfl, rfl⟩
  · split
    · exact ⟨rfl, rfl⟩
    · exact ⟨rfl, rfl⟩

theorem autoTurnOnTempMode_preserves_last (st : AutoState) (sp : Int)
    (tm : Option Nat) (resp : Option (List Nat)) (now : Nat) :
    ((autoTurnOnTempMode st sp tm resp now).2).lastStatusDesc = st.lastStatusDesc
    ∧ ((autoTurnOnTempMode st sp tm resp now).2).lastErrorDesc = st.lastErrorDesc := by
  unfold autoTurnOnTempMode
  split
  · exact ⟨rfl, rfl⟩
  · split
    · exact ⟨rfl, rfl⟩
    · exact ⟨rfl, rfl⟩

theorem autoTurnOnPowerMode_preserves_last (st : AutoState) (lv : Int)
    (tm : Option Nat) (resp : Option (List Nat)) (now : Nat) :
    ((autoTurnOnPowerMode st lv tm resp now).2).lastStatusDesc = st.lastStatusDesc
    ∧ ((autoTurnOnPowerMode st lv tm resp now).2).lastErrorDesc = st.lastErrorDesc := by
  unfold autoTurnOnPowerMode
  split
  · exact ⟨rfl, rfl⟩
  · split
    · exact ⟨rfl, rfl⟩
    · exact ⟨rfl, rfl⟩

theorem autoTurnOnFanOnly_preserves_last (st : AutoState) (lv : Int)
    (tm : Option Nat) (resp : Option (List Nat)) (now : Nat) :
    ((autoTurnOnFanOnly st lv tm resp now).2).lastStatusDesc = st.lastStatusDesc
    ∧ ((autoTurnOnFanOnly st lv tm resp now).2).lastErrorDesc = st.lastErrorDesc := by
  unfold autoTurnOnFanOnly
  split
  · exact ⟨rfl, rfl⟩
  · split
    · exact ⟨rfl, rfl⟩
    · exact ⟨rfl, rfl⟩

theorem statusOf_hcShutdown (w : Bool) (st : SysState) :
    statusOf (hcShutdown w st) = statusOf st := by
  unfold statusOf getState hcShutdown
  simp only
  split
  · rfl
  · have h := autoTurnOff_preserves_last st.auto (wireResp w)
    split
    · simp [h.1, h.2]
    · rfl

theorem statusOf_hcTurnOnHeating (mode : String) (v : Int) (rm : Option Nat)
    (w : Bool) (now : Nat) (st : SysState) :
    statusOf (hcTurnOnHeating mode v rm w now st) = statusOf st := by
  unfold statusOf getState hcTurnOnHeating
  simp only
  split
  · rfl
  · have ht := autoTurnOnTempMode_preserves_last st.auto v none (wireResp w) now
    have hp := autoTurnOnPowerMode_preserves_last st.auto v none (wireResp w) now
    split <;> (try split) <;> (try split) <;> simp_all

theorem statusOf_update_retry (st : SysState) (x : Option Nat) :
    statusOf { st with retryShutdownTimestamp := x } = statusOf st := rfl

theorem statusOf_schedEntryStep (day : Nat) (timeStr : String) (nowTs : Nat)
    (w : Bool) (t : TimerEntry) (st : SysState) :
    statusOf (schedEntryStep day timeStr nowTs w t st).2 = statusOf st := by
  unfold schedEntryStep
  split
  · split
    · split
      · exact statusOf_hcTurnOnHeating "temperature" t.output none w nowTs st
      · rfl
    · split
      · split
        · exact statusOf_update_retry st (some (nowTs + 60))
        · split
          · rfl
          · exact statusOf_hcShutdown w st
      · rfl
  · rfl

theorem statusOf_retryStep (nowTs : Nat) (w : Bool) (st : SysState) :
    statusOf (retryStep nowTs w st).2 = statusOf st := by
  unfold retryStep
  split
  · split
    · split
      · exact statusOf_update_retry st _
      · split
        · exact statusOf_update_retry st none
        · calc statusOf { hcShutdown w st with retryShutdownTimestamp := none }
              = statusOf (hcShutdown w st) := rfl
            _ = statusOf st := statusOf_hcShutdown w st
    · rfl
  · rfl

theorem retryStep_no_shutdown_while_starting (nowTs : Nat) (w : Bool) (st : SysState)
    (h : strContains (statusOf st) "Starting" = true) :
    (retryStep nowTs w st).1 = [] := by
  unfold retryStep
  split
  · split
    · split
      · rfl
      · split
        · rfl
        · exact absurd h (by assumption)
    · rfl
  · rfl

theorem schedEntryStep_no_shutdown_while_starting (day : Nat) (timeStr : String)
    (nowTs : Nat) (w : Bool) (t : TimerEntry) (st : SysState)
    (h : strContains (statusOf st) "Starting" = true) :
    AppCmd.shutdown ∉ (schedEntryStep day timeStr nowTs w t st).1 := by
  unfold schedEntryStep
  split
  · split
    · split
      · simp
      · simp
    · split
      · split
        · simp
        · split
          · simp
          · exact absurd h (by assumption)
      · simp
  · simp

theorem schedLoop_no_shutdown_while_starting (day : Nat) (timeStr : String)
    (nowTs : Nat) (w : Bool) (timers : List TimerEntry) :
    ∀ st : SysState, strContains (statusOf st) "Starting" = true →
      AppCmd.shutdown ∉ (schedLoop day timeStr nowTs w timers st).1 := by
  induction timers with
  | nil =>
    intro st _
    simp [schedLoop]
  | cons t rest ih =>
    intro st h
    simp only [schedLoop, List.mem_append]
    intro hmem
    rcases hmem with hmem | hmem
    · exact schedEntryStep_no_shutdown_while_starting day timeStr nowTs w t st h hmem
    · have hst : strContains (statusOf (schedEntryStep day timeStr nowTs w t st).2)
          "Starting" = true := by
        rw [statusOf_schedEntryStep]
        exact h
      exact ih _ hst hmem

/-! ### Claim C2 -/

/-- A connected controller whose last telemetry reports a mid-ignition
phase (`status_text` entry (2, 2), "Starting - Ignition 1"). -/
def autoStarting : AutoState :=
  ⟨true, "off", 0, none, "Starting - Ignition 1", "No Error"⟩

/-- Initial system state around `autoStarting`: no timers armed, weekly
timer system enabled. -/
def stStarting : SysState :=
  ⟨autoStarting, ⟨false, none, none, none⟩, none, none, false, none, none, true⟩

/-- C2 counterexample: start a 1-minute timed run via the command handler,
then tick `check_runtime_timer` a minute later while the status still
reports `Starting - Ignition 1` — the tick issues the shutdown command
even though the reported status is a starting (mid-ignition) phase. -/
theorem shutdown_during_ignition_counterexample :
    AppCmd.shutdown ∈
      (checkRuntimeTimer true 1060
        (handleTurnOnCommand "power" 5 (some 1) true 1000 stStarting).2).1
    ∧ strContains
        (statusOf (handleTurnOnCommand "power" 5 (some 1) true 1000 stStarting).2)
        "Starting" = true := by
  decide

/-- C2 (amended): the weekly-schedule tick (`check_heater_schedule`) never
issues the shutdown command while the reported status description contains
`"Starting"` — any due end-time or retry defers via the retry-shutdown
timestamp — but the runtime-timer tick (`check_runtime_timer`) issues the
shutdown command whenever its deadline is due, without consulting the
status at all. -/
theorem no_schedule_shutdown_while_starting (day : Nat) (timeStr : String)
    (nowTs : Nat) (w : Bool) (timers : List TimerEntry) (st : SysState)
    (h : strContains (statusOf st) "Starting" = true) :
    AppCmd.shutdown ∉ (checkHeaterSchedule day timeStr nowTs w timers st).1
    ∧ ∀ (st2 : SysState) (now2 e : Nat), st2.runtimeEndTime = some e →
        now2 ≥ e → st2.shutdownTriggered = false →
        AppCmd.shutdown ∈ (checkRuntimeTimer w now2 st2).1 := by
  constructor
  · unfold checkHeaterSchedule
    split
    · simp
    · simp only [List.mem_append]
      intro hmem
      rcases hmem with hmem | hmem
      · rw [retryStep_no_shutdown_while_starting nowTs w st h] at hmem
        exact List.not_mem_nil _ hmem
      · have hst : strContains (statusOf (retryStep nowTs w st).2) "Starting" = true := by
          rw [statusOf_retryStep]
          exact h
        exact schedLoop_no_shutdown_while_starting day timeStr nowTs w timers _ hst hmem
  · intro st2 now2 e he hdue htrig
    have h300 : ¬ (now2 ≥ now2 + 5 * 60) := by omega
    simp [checkRuntimeTimer, he, hdue, htrig, h300]

/-- Witness for `no_schedule_shutdown_while_starting` on the concrete
mid-ignition state with a one-entry schedule whose end time is due. -/
theorem no_schedule_shutdown_while_starting_witness :
    AppCmd.shutdown ∉
      (checkHeaterSchedule 1 "09:00" 2000 true
        [⟨[1], some "08:00", some "09:00", 22⟩] stStarting).1
    ∧ AppCmd.shutdown ∈
        (checkRuntimeTimer true 1060
          { stStarting with runtimeEndTime := some 1060 }).1 :=
  ⟨(no_schedule_shutdown_while_starting 1 "09:00" 2000 true
      [⟨[1], some "08:00", some "09:00", 22⟩] stStarting (by decide)).1,
   (no_schedule_shutdown_while_starting 1 "09:00" 2000 true
      [⟨[1], some "08:00", some "09:00", 22⟩] stStarting (by decide)).2
     { stStarting with runtimeEndTime := some 1060 } 1060 1060 rfl
     (by omega) rfl⟩

/-! ### Claim C5 -/

/-- A state with every timer armed: library hardware timer, start-timer
with pending command, shutdown-timer, runtime/safety globals, and the
retry-shutdown timestamp. -/
def stAllTimers : SysState :=
  ⟨⟨true, "temp", 21, some 777, "Heating", "No Error"⟩,
   ⟨false, some 11, some ⟨"turn_on", "temperature", 21, none⟩, some 222⟩,
   some 333, some 444, true, some 5, some 555, true⟩

/-- C5 counterexample: after the app-level shutdown command (which runs
`HeaterController.shutdown()` and resets the runtime globals), the
retry-shutdown timestamp is still armed — shutdown does not clear it. -/
theorem shutdown_clears_retry_counterexample :
    ((handleShutdownCommand true stAllTimers).2).retryShutdownTimestamp = some 555
    ∧ stAllTimers.retryShutdownTimestamp = some 555 := by
  exact ⟨rfl, rfl⟩

/-- C5 (amended): shutdown always issues the off command and clears the
start-timer together with its pending command, the shutdown-timer, and the
runtime/safety globals, for every prior timer state — but it leaves the
retry-shutdown timestamp untouched (that one is managed only by the
schedule tick's retry block). -/
theorem shutdown_clears_all_but_retry (w : Bool) (st : SysState) :
    ((handleShutdownCommand w st).2).hc.startTimerTimestamp = none
    ∧ ((handleShutdownCommand w st).2).hc.pendingStartCommand = none
    ∧ ((handleShutdownCommand w st).2).hc.shutdownTimerTimestamp = none
    ∧ ((handleShutdownCommand w st).2).runtimeEndTime = none
    ∧ ((handleShutdownCommand w st).2).safetyShutdownTime = none
    ∧ ((handleShutdownCommand w st).2).runtimeDuration = none
    ∧ ((handleShutdownCommand w st).2).shutdownTriggered = false
    ∧ ((handleShutdownCommand w st).2).retryShutdownTimestamp
        = st.retryShutdownTimestamp
    ∧ (handleShutdownCommand w st).1 = [AppCmd.shutdown]
    ∧ (st.hc.isMocked = false → st.auto.isInitialized = true → w = true →
        ((handleShutdownCommand w st).2).auto.currentMode = "off") := by
  refine ⟨rfl, rfl, rfl, rfl, rfl, rfl, rfl, rfl, rfl, ?_⟩
  intro hm hi hw
  subst hw
  simp [handleShutdownCommand, hcShutdown, autoTurnOff, wireResp, hm, hi]

/-- Witness for `shutdown_clears_all_but_retry` at the all-timers state. -/
theorem shutdown_clears_all_but_retry_witness :
    ((handleShutdownCommand true stAllTimers).2).hc.startTimerTimestamp = none
    ∧ ((handleShutdownCommand true stAllTimers).2).retryShutdownTimestamp
        = stAllTimers.retryShutdownTimestamp
    ∧ ((handleShutdownCommand true stAllTimers).2).auto.currentMode = "off" :=
  ⟨(shutdown_clears_all_but_retry true stAllTimers).1,
   (shutdown_clears_all_but_retry true stAllTimers).2.2.2.2.2.2.2.1,
   (shutdown_clears_all_but_retry true stAllTimers).2.2.2.2.2.2.2.2.2
     rfl rfl rfl⟩

/-! ### Claim C10 -/

/-- C10: each turn-on command and the turn-off command is atomic on
failure — an uninitialized session or a failed exchange returns `false`
with the cached mode, setpoint and timer end time unchanged; the caches
are updated only when the exchange succeeds. -/
theorem wire_commands_atomic_on_failure (st : AutoState) (v : Int)
    (tm : Option Nat) (resp : Option (List Nat)) (now : Nat) :
    (st.isInitialized = false ∨ resp = none →
      autoTurnOnTempMode st v tm resp now = (false, st)
      ∧ autoTurnOnPowerMode st v tm resp now = (false, st)
      ∧ autoTurnOnFanOnly st v tm resp now = (false, st)
      ∧ autoTurnOff st resp = (false, st))
    ∧ (st.isInitialized = true → resp.isSome = true →
      (autoTurnOnTempMode st v tm resp now).1 = true
      ∧ (autoTurnOnTempMode st v tm resp now).2.currentMode = "temp"
      ∧ (autoTurnOnTempMode st v tm resp now).2.currentSetpoint = v
      ∧ (autoTurnOnPowerMode st v tm resp now).1 = true
      ∧ (autoTurnOnPowerMode st v tm resp now).2.currentMode = "power"
      ∧ (autoTurnOnFanOnly st v tm resp now).1 = true
      ∧ (autoTurnOnFanOnly st v tm resp now).2.currentMode = "fan"
      ∧ (autoTurnOff st resp).1 = true
      ∧ (autoTurnOff st resp).2.currentMode = "off") := by
  constructor
  · intro h
    rcases h with h | h
    · simp [autoTurnOnTempMode, autoTurnOnPowerMode, autoTurnOnFanOnly,
        autoTurnOff, h]
    · subst h
      simp [autoTurnOnTempMode, autoTurnOnPowerMode, autoTurnOnFanOnly,
        autoTurnOff]
  · intro hi hr
    simp [autoTurnOnTempMode, autoTurnOnPowerMode, autoTurnOnFanOnly,
      autoTurnOff, hi, hr]

/-- Witness for `wire_commands_atomic_on_failure`: an uninitialized
session leaves the state untouched even with a successful exchange
available. -/
theorem wire_commands_atomic_on_failure_witness :
    autoTurnOnTempMode ⟨false, "off", 0, none, "Standby", "No Error"⟩ 21 none
        (some []) 0
      = (false, ⟨false, "off", 0, none, "Standby", "No Error"⟩)
    ∧ autoTurnOff ⟨false, "off", 0, none, "Standby", "No Error"⟩ (some [])
      = (false, ⟨false, "off", 0, none, "Standby", "No Error"⟩) :=
  ⟨((wire_commands_atomic_on_failure ⟨false, "off", 0, none, "Standby", "No Error"⟩
      21 none (some []) 0).1 (Or.inl rfl)).1,
   ((wire_commands_atomic_on_failure ⟨false, "off", 0, none, "Standby", "No Error"⟩
      21 none (some []) 0).1 (Or.inl rfl)).2.2.2⟩

/-! ### Claim C6 -/

/-- A running heater whose shutdown-timer has 30 seconds left at
`now = 1000`. -/
def stShortTimer : SysState :=
  ⟨⟨true, "temp", 20, none, "Heating", "No Error"⟩, ⟨false, none, none, some 1030⟩,
   none, none, false, none, none, true⟩

/-- C6 counterexample: with a shutdown-timer armed 30 s from expiry,
`change_settings` (successful exchange) cancels the timer outright — the
remaining time is truncated to `int(30/60) = 0` minutes, which the
re-issued turn-on treats as "no timer". -/
theorem change_settings_cancels_short_timer_counterexample :
    stShortTimer.hc.shutdownTimerTimestamp = some 1030
    ∧ (hcChangeSettings "temperature" 21 true 1000
        stShortTimer).hc.shutdownTimerTimestamp = none
    ∧ (hcChangeSettings "temperature" 21 true 1000
        stShortTimer).auto.currentMode = "temp" := by
  decide

/-- C6 (amended): `change_settings` re-issues the equivalent turn-on, and
on a successful exchange it re-arms the shutdown-timer only to the
remaining time rounded down to whole minutes (`now + ((ts - now) / 60) * 60`);
when less than one full minute remains the timer is cancelled, and when no
shutdown-timer was armed none is created. -/
theorem change_settings_truncates_timer (mode : String) (v : Int) (now : Nat)
    (st : SysState) (ts : Nat)
    (hm : st.hc.isMocked = false) (hi : st.auto.isInitialized = true)
    (hmode : modeMap mode = some "temp" ∨ modeMap mode = some "power"
      ∨ modeMap mode = some "fan") :
    (st.hc.shutdownTimerTimestamp = none →
      (hcChangeSettings mode v true now st).hc.shutdownTimerTimestamp = none)
    ∧ (st.hc.shutdownTimerTimestamp = some ts →
        (hcChangeSettings mode v true now st).hc.shutdownTimerTimestamp
          = (if (ts - now) / 60 > 0 then some (now + ((ts - now) / 60) * 60)
             else none))
    ∧ (hcChangeSettings mode v true now st).auto.currentSetpoint = v := by
  rcases hmode with hc1 | hc1 | hc1 <;>
    refine ⟨fun h => ?_, fun h => ?_, ?_⟩ <;>
    simp [hcChangeSettings, hcTurnOnHeating, hcTurnOnVentilation,
      autoTurnOnTempMode, autoTurnOnPowerMode, autoTurnOnFanOnly,
      wireResp, hm, hi, hc1, *]

/-- A running heater whose shutdown-timer has 90 seconds left at
`now = 1000`. -/
def stNinetySec : SysState :=
  ⟨⟨true, "temp", 20, none, "Heating", "No Error"⟩, ⟨false, none, none, some 1090⟩,
   none, none, false, none, none, true⟩

/-- Witness for `change_settings_truncates_timer`: 90 s remaining becomes
a single whole minute (`some 1060`). -/
theorem change_settings_truncates_timer_witness :
    (hcChangeSettings "temperature" 21 true 1000
      stNinetySec).hc.shutdownTimerTimestamp = some 1060 := by
  have h := (change_settings_truncates_timer "temperature" 21 1000 stNinetySec
    1090 rfl rfl (Or.inl (by decide))).2.1 rfl
  exact h.trans (by decide)

/-! ### Claim C7 -/

/-- Helper: with an empty timer list the schedule tick is exactly the
retry block. -/
theorem checkHeaterSchedule_nil_timers (day : Nat) (timeStr : String)
    (nowTs : Nat) (w : Bool) (st : SysState) (hon : st.timerOnOff = true) :
    checkHeaterSchedule day timeStr nowTs w [] st = retryStep nowTs w st := by
  unfold checkHeaterSchedule
  rw [if_neg (by simp [hon])]
  simp [schedLoop]

/-- A retry-shutdown armed at `t = 100` with the heater reporting
`Standby`. -/
def stStandbyRetry : SysState :=
  ⟨⟨true, "temp", 21, none, "Standby", "No Error"⟩, ⟨false, none, none, none⟩,
   none, none, false, none, some 100, true⟩

/-- C7 counterexample: with the retry due and the status reporting
`Standby`, the tick clears the retry without issuing any command — it does
not issue the real shutdown as the claim states. -/
theorem retry_standby_counterexample :
    (checkHeaterSchedule 0 "12:00" 100 true [] stStandbyRetry).1 = []
    ∧ (checkHeaterSchedule 0 "12:00" 100 true []
        stStandbyRetry).2.retryShutdownTimestamp = none := by
  decide

/-- C7 (amended): when the retry-shutdown timestamp is due at a tick: a
status still containing `"Starting"` re-arms the retry 60 s later; a
status reporting `Standby` (or containing `"Shutting"`, or equal to
`"off"`) clears the retry without issuing any shutdown (already safe); any
other (normally running) status executes the deferred shutdown now and
clears the retry. -/
theorem retry_tick_behaviour (day : Nat) (timeStr : String) (nowTs : Nat)
    (w : Bool) (st : SysState) (rt : Nat) (hon : st.timerOnOff = true)
    (hrt : st.retryShutdownTimestamp = some rt) (hdue : nowTs ≥ rt) :
    (strContains (statusOf st) "Starting" = true →
      checkHeaterSchedule day timeStr nowTs w [] st
        = ([], { st with retryShutdownTimestamp := some (nowTs + 60) }))
    ∧ ((strContains (statusOf st) "Shutting" = true ∨ statusOf st = "Standby"
          ∨ statusOf st = "off") →
        strContains (statusOf st) "Starting" = false →
      checkHeaterSchedule day timeStr nowTs w [] st
        = ([], { st with retryShutdownTimestamp := none }))
    ∧ (strContains (statusOf st) "Starting" = false →
       strContains (statusOf st) "Shutting" = false →
       statusOf st ≠ "Standby" → statusOf st ≠ "off" →
      checkHeaterSchedule day timeStr nowTs w [] st
        = ([AppCmd.shutdown],
           { hcShutdown w st with retryShutdownTimestamp := none })) := by
  rw [checkHeaterSchedule_nil_timers day timeStr nowTs w st hon]
  simp only [retryStep, hrt]
  refine ⟨fun hstart => ?_, fun hsafe hnostart => ?_, fun h1 h2 h3 h4 => ?_⟩
  · have hs : strContains (getState st).status "Starting" = true := hstart
    rw [if_pos hdue, if_pos hs]
  · have hns : strContains (getState st).status "Starting" = false := hnostart
    have hsafe2 : strContains (getState st).status "Shutting" = true
        ∨ (getState st).status = "Standby" ∨ (getState st).status = "off" := hsafe
    rw [if_pos hdue, if_neg (by simp [hns]), if_pos hsafe2]
  · have hns : strContains (getState st).status "Starting" = false := h1
    have hns2 : strContains (getState st).status "Shutting" = false := h2
    have hns3 : (getState st).status ≠ "Standby" := h3
    have hns4 : (getState st).status ≠ "off" := h4
    rw [if_pos hdue, if_neg (by simp [hns]), if_neg (by
      intro hc
      rcases hc with hc | hc | hc
      · rw [hns2] at hc
        cases hc
      · exact hns3 hc
      · exact hns4 hc)]

/-- A retry-shutdown armed at `t = 100` with the heater normally running
(`Heating`). -/
def stHeatingRetry : SysState :=
  ⟨⟨true, "temp", 21, none, "Heating", "No Error"⟩, ⟨false, none, none, none⟩,
   none, none, false, none, some 100, true⟩

/-- Witness for `retry_tick_behaviour`: a due retry with status `Heating`
executes the deferred shutdown and clears the retry. -/
theorem retry_tick_behaviour_witness :
    checkHeaterSchedule 0 "12:00" 100 true [] stHeatingRetry
      = ([AppCmd.shutdown],
         { hcShutdown true stHeatingRetry with retryShutdownTimestamp := none }) :=
  (retry_tick_behaviour 0 "12:00" 100 true stHeatingRetry 100 rfl rfl
    (by decide)).2.2 (by decide) (by decide) (by decide) (by decide)

/-! ### Claim C9 -/

/-- Helper: the retry block is a no-op when no retry is armed. -/
theorem retryStep_none (nowTs : Nat) (w : Bool) (st : SysState)
    (h : st.retryShutdownTimestamp = none) :
    retryStep nowTs w st = ([], st) := by
  simp only [retryStep, h]

/-- Helper: with no retry armed, a one-entry schedule tick is exactly the
entry step. -/
theorem checkHeaterSchedule_single (day : Nat) (timeStr : String) (nowTs : Nat)
    (w : Bool) (e : TimerEntry) (st : SysState) (hon : st.timerOnOff = true)
    (hretry : st.retryShutdownTimestamp = none) :
    checkHeaterSchedule day timeStr nowTs w [e] st
      = schedEntryStep day timeStr nowTs w e st := by
  unfold checkHeaterSchedule
  rw [if_neg (by simp [hon])]
  simp [schedLoop, retryStep_none nowTs w st hretry]

/-- The weekly entry of the claim's scenario: weekday set `[1]` (Tuesday,
with Monday = 0), start `08:00`, end `09:00`, setpoint 22. -/
def tueEntry : TimerEntry := ⟨[1], some "08:00", some "09:00", 22⟩

/-- An enabled schedule with the heater in `Standby` and the frontend
reporting temperature mode at setpoint 22. -/
def stStandbyNoRetry : SysState :=
  ⟨⟨true, "temp", 22, none, "Standby", "No Error"⟩, ⟨false, none, none, none⟩,
   none, none, false, none, none, true⟩

/-- C9 counterexample: a tick at Tuesday 09:00 with the status reporting
`Standby` — which is not a `Starting` phase — issues no shutdown at all
(the redundancy check suppresses it), contradicting the claim's "issues
shutdown() provided the reported status is not a Starting phase". -/
theorem weekly_end_no_shutdown_counterexample :
    strContains (statusOf stStandbyNoRetry) "Starting" = false
    ∧ (checkHeaterSchedule 1 "09:00" 3600 true [tueEntry] stStandbyNoRetry).1
        = [] := by
  decide

/-- C9 (amended): with the weekly schedule enabled and entry
`{weekdays:[1], start "08:00", end "09:00", setpoint 22}` and no pending
retry: a tick at Tuesday 08:00 issues `turn_on(temperature, 22)` exactly
once, with no run-limit timer (`run_timer_minutes = none`), and is skipped
when the heater already reports temperature mode at setpoint 22; a tick at
08:01 issues nothing; a tick at 09:00 issues `shutdown()` provided the
reported status is neither a `Starting` phase nor an already-safe status
(`Standby`, containing `Shutting`, or `off`). -/
theorem weekly_schedule_entry_behaviour (st : SysState) (nowTs : Nat) (w : Bool)
    (hon : st.timerOnOff = true) (hretry : st.retryShutdownTimestamp = none) :
    ((getState st).mode ≠ "temperature" ∨ (getState st).setpoint ≠ 22 →
      (checkHeaterSchedule 1 "08:00" nowTs w [tueEntry] st).1
        = [AppCmd.turnOnHeating "temperature" 22 none])
    ∧ ((getState st).mode = "temperature" → (getState st).setpoint = 22 →
      (checkHeaterSchedule 1 "08:00" nowTs w [tueEntry] st).1 = [])
    ∧ (checkHeaterSchedule 1 "08:01" nowTs w [tueEntry] st).1 = []
    ∧ (strContains (statusOf st) "Starting" = false →
       strContains (statusOf st) "Shutting" = false →
       statusOf st ≠ "Standby" → statusOf st ≠ "off" →
      (checkHeaterSchedule 1 "09:00" nowTs w [tueEntry] st).1
        = [AppCmd.shutdown]) := by
  refine ⟨fun h => ?_, fun h1 h2 => ?_, ?_, fun h1 h2 h3 h4 => ?_⟩
  · rw [checkHeaterSchedule_single 1 "08:00" nowTs w tueEntry st hon hretry]
    unfold schedEntryStep
    rw [if_pos (show (1 : Nat) ∈ tueEntry.days by decide),
      if_pos (show tueEntry.starttime = some "08:00" from by decide)]
    rw [if_pos (show (getState st).mode ≠ "temperature"
        ∨ (getState st).setpoint ≠ tueEntry.output from by
      simpa [tueEntry] using h)]
    simp [tueEntry]
  · rw [checkHeaterSchedule_single 1 "08:00" nowTs w tueEntry st hon hretry]
    unfold schedEntryStep
    rw [if_pos (show (1 : Nat) ∈ tueEntry.days by decide),
      if_pos (show tueEntry.starttime = some "08:00" from by decide)]
    rw [if_neg (show ¬((getState st).mode ≠ "temperature"
        ∨ (getState st).setpoint ≠ tueEntry.output) from by
      simp [tueEntry, h1, h2])]
  · rw [checkHeaterSchedule_single 1 "08:01" nowTs w tueEntry st hon hretry]
    unfold schedEntryStep
    rw [if_pos (show (1 : Nat) ∈ tueEntry.days by decide),
      if_neg (show ¬(tueEntry.starttime = some "08:01") from by decide),
      if_neg (show ¬(tueEntry.endtime = some "08:01") from by decide)]
  · rw [checkHeaterSchedule_single 1 "09:00" nowTs w tueEntry st hon hretry]
    unfold schedEntryStep
    have hns : strContains (getState st).status "Starting" = false := h1
    have hns2 : strContains (getState st).status "Shutting" = false := h2
    have hns3 : (getState st).status ≠ "Standby" := h3
    have hns4 : (getState st).status ≠ "off" := h4
    rw [if_pos (show (1 : Nat) ∈ tueEntry.days by decide),
      if_neg (show ¬(tueEntry.starttime = some "09:00") from by decide),
      if_pos (show tueEntry.endtime = some "09:00" from by decide),
      if_neg (by simp [hns]), if_neg (by
        intro hc
        rcases hc with hc | hc | hc
        · rw [hns2] at hc
          cases hc
        · exact hns3 hc
        · exact hns4 hc)]

/-- An enabled schedule with the heater running in power mode and status
`Heating`. -/
def stPowerHeating : SysState :=
  ⟨⟨true, "power", 5, none, "Heating", "No Error"⟩, ⟨false, none, none, none⟩,
   none, none, false, none, none, true⟩

/-- Witness for `weekly_schedule_entry_behaviour`: at 08:00 the entry
issues the temperature turn-on once (no run limit); at 09:00, with status
`Heating`, it issues the shutdown. -/
theorem weekly_schedule_entry_behaviour_witness :
    (checkHeaterSchedule 1 "08:00" 0 true [tueEntry] stPowerHeating).1
      = [AppCmd.turnOnHeating "temperature" 22 none]
    ∧ (checkHeaterSchedule 1 "09:00" 0 true [tueEntry] stPowerHeating).1
      = [AppCmd.shutdown] :=
  ⟨(weekly_schedule_entry_behaviour stPowerHeating 0 true rfl rfl).1 (by decide),
   (weekly_schedule_entry_behaviour stPowerHeating 0 true rfl rfl).2.2.2
     (by decide) (by decide) (by decide) (by decide)⟩
